import Mathlib

set_option maxRecDepth 100000

/-!
# Verification of the Trinity self-healing build orchestration loop

A shallow embedding of the core of the `trinity` repository:

* `SmartHealer` (src/trinity/components/healer.py) — the deterministic
  strategy escalator;
* `TrinityGuardian.audit_layout` (src/guardian.py) — the two-phase layout
  auditor with fail-open semantic checking;
* `TrinityMiner` (src/trinity/components/dataminer.py) — the telemetry
  resolved-outcome computation and the exception-swallowing logger;
* `LayoutRiskPredictor.predict_best_strategy` output shape
  (src/trinity/components/predictor.py);
* `TrinityEngine.build_with_self_healing` (src/trinity/engine.py) — the
  bounded orchestration loop and its predictor pre-seeding step.

External effects (template rendering, browser audits, the vision model,
file IO) are modelled by oracles: per-attempt `Except`-valued outcomes that
the loop consumes exactly where the Python code performs the corresponding
call.  Python floats (predictor confidences) are modelled as rationals; the
claims under study compare confidences against 0.6 at points far from any
binary-float rounding boundary, so the rational model is faithful there.
-/

namespace Trinity

/-! ## Content documents

`ContentDocument` in the source is an arbitrary nested JSON-like dict.  The
mutual inductive mirrors nested dicts, lists, strings and (opaque)
non-string scalars; `Fields` keeps the insertion order of a Python dict. -/

mutual
inductive Content where
  | str (s : String)
  | num (n : Int)
  | dict (fields : Fields)
  | arr (items : Items)

inductive Fields where
  | nil
  | cons (key : String) (value : Content) (rest : Fields)

inductive Items where
  | nil
  | cons (head : Content) (tail : Items)
end

/-- The keys of a dict level, in insertion order. -/
def Fields.keys : Fields → List String
  | .nil => []
  | .cons k _ r => k :: Fields.keys r

/-- Number of entries of a list level. -/
def Items.length : Items → Nat
  | .nil => 0
  | .cons _ t => 1 + Items.length t

/-! ## Healing strategies (healer.py) -/

/-- `HealingStrategy` enum from healer.py. -/
inductive HealingStrategy where
  | css_break_word
  | font_shrink
  | css_truncate
  | content_cut
deriving DecidableEq, Repr

/-- The `str` value of each enum member (healer.py lines 24-27). -/
def HealingStrategy.value : HealingStrategy → String
  | .css_break_word => "css_break_word"
  | .font_shrink => "font_shrink"
  | .css_truncate => "css_truncate"
  | .content_cut => "content_cut"

/-- The escalation rank of a strategy (tier 1..4 of the spec's table). -/
def HealingStrategy.tier : HealingStrategy → Nat
  | .css_break_word => 1
  | .font_shrink => 2
  | .css_truncate => 3
  | .content_cut => 4

/-- Guardian audit report dictionary (the keys used by the engine/healer). -/
structure Report where
  approved : Bool
  status : String
  reason : String
  issues : List String
  fix_suggestion : String
deriving Repr, DecidableEq

/-- `HealingResult` pydantic model from healer.py.  A Python `Dict[str, str]`
of style overrides is modelled as an insertion-ordered association list. -/
structure HealingResult where
  strategy : HealingStrategy
  style_overrides : List (String × String) := []
  content_modified : Bool := false
  modified_content : Option Content := none
  description : String := ""

/-- `SmartHealer` instance state: the `truncate_length` configuration. -/
structure SmartHealer where
  truncate_length : Int

/-- Python `s[:max_len] + "..."` applied only when `len(s) > max_len`
(healer.py `_truncate_recursive`, string case). -/
def truncStr (maxLen : Nat) (s : String) : String :=
  if s.length > maxLen then s.take maxLen ++ "..." else s

mutual
/-- healer.py `_truncate_recursive`: recursively truncate every string in a
nested structure, preserving dicts, lists and non-string scalars. -/
def truncate_recursive (maxLen : Nat) : Content → Content
  | .str s => .str (truncStr maxLen s)
  | .num n => .num n
  | .dict fs => .dict (truncateFields maxLen fs)
  | .arr xs => .arr (truncateItems maxLen xs)

def truncateFields (maxLen : Nat) : Fields → Fields
  | .nil => .nil
  | .cons k v r => .cons k (truncate_recursive maxLen v) (truncateFields maxLen r)

def truncateItems (maxLen : Nat) : Items → Items
  | .nil => .nil
  | .cons x t => .cons (truncate_recursive maxLen x) (truncateItems maxLen t)
end

/-- The nuclear CSS injected by strategy 1 (healer.py line 122). -/
def nuclearCss : String := "break-all whitespace-normal overflow-wrap-anywhere"

/-- healer.py `_apply_break_word_strategy` override dict, in literal order. -/
def breakWordOverrides : List (String × String) :=
  [("heading_primary", nuclearCss), ("heading_secondary", nuclearCss),
   ("body_text", nuclearCss), ("hero_title", nuclearCss),
   ("hero_subtitle", nuclearCss), ("card_title", nuclearCss),
   ("card_description", nuclearCss), ("tagline", nuclearCss)]

/-- healer.py strategy 1: CSS_BREAK_WORD. -/
def apply_break_word_strategy (_report : Report) : HealingResult :=
  { strategy := .css_break_word,
    style_overrides := breakWordOverrides,
    content_modified := false,
    description := "Injected NUCLEAR break-all (mid-word breaking) to all text components via theme_classes keys" }

/-- healer.py strategy 2: FONT_SHRINK. -/
def apply_font_shrink_strategy (_report : Report) (_content : Content) : HealingResult :=
  { strategy := .font_shrink,
    style_overrides :=
      [("heading_primary", "text-3xl break-all"), ("heading_secondary", "text-xl break-all"),
       ("body_text", "text-base break-words"), ("hero_title", "text-3xl break-all"),
       ("hero_subtitle", "text-lg break-words"), ("card_title", "text-xl break-all")],
    content_modified := false,
    description := "Reduced font sizes: headings (text-3xl/xl), body (text-base)" }

/-- healer.py strategy 3: CSS_TRUNCATE. -/
def apply_truncate_strategy (_report : Report) : HealingResult :=
  { strategy := .css_truncate,
    style_overrides :=
      [("heading_primary", "truncate text-2xl"), ("heading_secondary", "truncate text-lg"),
       ("body_text", "line-clamp-3 text-sm"), ("hero_title", "truncate text-2xl"),
       ("hero_subtitle", "line-clamp-2 text-base"), ("card_title", "truncate text-lg"),
       ("card_description", "line-clamp-3 text-sm"), ("tagline", "truncate")],
    content_modified := false,
    description := "Added truncate and line-clamp classes with reduced font sizes" }

/-- The cut length for strategy 4: `max(30, truncate_length - (attempt - 4) * 10)`
(healer.py line 209).  Computed over the integers as Python does. -/
def contentCutMaxLen (truncate_length : Int) (attempt : Nat) : Int :=
  max 30 (truncate_length - ((attempt : Int) - 4) * 10)

/-- healer.py strategy 4 (nuclear): CONTENT_CUT. -/
def apply_content_cut_strategy (h : SmartHealer) (content : Content) (attempt : Nat) :
    HealingResult :=
  let max_len := contentCutMaxLen h.truncate_length attempt
  { strategy := .content_cut,
    style_overrides := [],
    content_modified := true,
    modified_content := some (truncate_recursive max_len.toNat content),
    description := "Truncated all strings to " ++ toString max_len ++ " characters (nuclear option)" }

/-- healer.py `SmartHealer.heal_layout`: dispatch on the attempt number. -/
def SmartHealer.heal_layout (h : SmartHealer) (guardian_report : Report)
    (content : Content) (attempt : Nat) : HealingResult :=
  if attempt = 1 then apply_break_word_strategy guardian_report
  else if attempt = 2 then apply_font_shrink_strategy guardian_report content
  else if attempt = 3 then apply_truncate_strategy guardian_report
  else apply_content_cut_strategy h content attempt

/-! ## Layout auditor (guardian.py)

`audit_layout` is driven by three external effects, modelled as oracle
inputs: the Phase-1 DOM overflow check result, whether the screenshot
capture succeeded (`_capture_screenshot` returns a falsy value on failure),
and the outcome of the vision call (`_analyze_with_vision`'s `try` body:
either a parsed `{status, issues, fix_suggestion}` response or one of the
three exception classes its handlers distinguish). -/

inductive VisionOutcome where
  | ok (status : String) (issues : List String) (fix_suggestion : String)
  | apiError (msg : String)
  | jsonError (msg : String)
  | otherError (msg : String)

/-- `true` on the three exceptional outcomes of the vision call. -/
def VisionOutcome.isFailure : VisionOutcome → Bool
  | .ok _ _ _ => false
  | _ => true

/-- The dictionary produced by `_analyze_with_vision`. -/
structure VisionAnalysis where
  status : String
  issues : List String
  fix_suggestion : String

/-- guardian.py `_analyze_with_vision`: return the parsed response, or the
fail-open dictionary of the matching exception handler (lines 268-289). -/
def analyze_with_vision : VisionOutcome → VisionAnalysis
  | .ok s i f => ⟨s, i, f⟩
  | .apiError _ => ⟨"pass", ["Vision AI unavailable - auto-approved"], "none"⟩
  | .jsonError _ => ⟨"pass", ["Vision AI response invalid - auto-approved"], "none"⟩
  | .otherError _ => ⟨"pass", ["Vision AI error - auto-approved"], "none"⟩

/-- Python `", ".join(xs)`. -/
def joinComma : List String → String
  | [] => ""
  | [s] => s
  | s :: rest => s ++ ", " ++ joinComma rest

/-- guardian.py `TrinityGuardian.audit_layout` (lines 291-370), as a function
of the oracle inputs described above. -/
def audit_layout (enable_vision_ai dom_overflow screenshot_ok : Bool)
    (vision : VisionOutcome) : Report :=
  if dom_overflow && !enable_vision_ai then
    { approved := false, status := "fail",
      reason := "DOM overflow detected (horizontal or vertical)",
      issues := ["Text or content overflowing container boundaries"],
      fix_suggestion := "truncate" }
  else if enable_vision_ai then
    if !screenshot_ok then
      { approved := true, status := "pass",
        reason := "Screenshot unavailable - approved by default",
        issues := [], fix_suggestion := "none" }
    else
      let va := analyze_with_vision vision
      if dom_overflow && (va.status == "pass") then
        { approved := true, status := "pass",
          reason := "DOM overflow detected but visually acceptable",
          issues := va.issues, fix_suggestion := va.fix_suggestion }
      else if va.status == "fail" then
        { approved := false, status := "fail",
          reason := "Visual layout bugs detected: " ++ joinComma va.issues,
          issues := va.issues, fix_suggestion := va.fix_suggestion }
      else
        { approved := true, status := "pass",
          reason := "Layout passed all checks",
          issues := va.issues, fix_suggestion := va.fix_suggestion }
  else
    { approved := !dom_overflow,
      status := if dom_overflow then "fail" else "pass",
      reason := if dom_overflow then "DOM overflow detected" else "DOM checks passed",
      issues := if dom_overflow then ["Horizontal or vertical overflow detected"] else [],
      fix_suggestion := if dom_overflow then "truncate" else "none" }

/-! ## Telemetry miner (dataminer.py) -/

/-- dataminer.py `_compute_resolved_strategy_id` (lines 356-389): map the
active strategy name and the Guardian verdict to the multiclass target. -/
def compute_resolved_strategy_id (strategy : String) (guardian_verdict : Bool) : Nat :=
  if !guardian_verdict then 99
  else if strategy = "NONE" then 0
  else if strategy = "CSS_BREAK_WORD" then 1
  else if strategy = "FONT_SHRINK" then 2
  else if strategy = "CSS_TRUNCATE" then 3
  else if strategy = "CONTENT_CUT" then 4
  else 99

/-- dataminer.py `log_build_event`: the entire body (feature extraction and
the CSV/stdout write, modelled as one effectful step) runs inside
`try ... except Exception`, so a telemetry failure never propagates. -/
def log_build_event (ioWrite : Except String Unit) : Except String Unit :=
  match ioWrite with
  | .ok _ => .ok ()
  | .error _ => .ok ()

/-! ## Strategy predictor output (predictor.py)

`predict_best_strategy` returns a dictionary; only its shape matters to the
engine.  Confidence is a rational standing in for the Python float. -/

/-- The recommendation dictionary returned by `predict_best_strategy`. -/
structure Prediction where
  strategy_id : Int
  strategy_name : String
  confidence : ℚ
  prediction_available : Bool

/-- predictor.py STRATEGY_MAP (lines 293-300). -/
def strategyName : Int → String
  | 0 => "NONE"
  | 1 => "CSS_BREAK_WORD"
  | 2 => "FONT_SHRINK"
  | 3 => "CSS_TRUNCATE"
  | 4 => "CONTENT_CUT"
  | 99 => "UNRESOLVED_FAIL"
  | _ => "UNKNOWN"

/-! ## Build orchestrator (engine.py) -/

/-- The slice of `TrinityConfig` the self-healing loop reads. -/
structure TrinityConfig where
  max_retries : Nat
  truncate_length : Int
  predictive_enabled : Bool

/-- engine.py `strategy_to_attempt` mapping (lines 193-200): names not in the
dict fall back to attempt 1 via `.get(strategy_name, 1)`. -/
def strategyToAttempt : String → Nat
  | "CSS_BREAK_WORD" => 1
  | "FONT_SHRINK" => 2
  | "CSS_TRUNCATE" => 3
  | "CONTENT_CUT" => 4
  | _ => 1

/-- engine.py `mock_report` for pre-emptive healing (lines 203-209). -/
def mockReport (strategy_name : String) : Report :=
  { approved := false, status := "fail",
    reason := "ML predicted " ++ strategy_name ++ " needed",
    issues := ["Multiclass model recommends " ++ strategy_name],
    fix_suggestion := strategy_name.toLower }

/-- Renders a confidence for log strings, standing in for Python's
`f"{confidence:.0%}"` (we floor where Python rounds; the difference can only
change log text, never control flow). -/
def pctString (c : ℚ) : String := toString (Rat.floor (c * 100)) ++ "%"

/-- The two pieces of `BuildAttemptState` the pre-cognition block may write:
the accumulated style overrides and the fixes-applied log. -/
structure PreSeedResult where
  overrides : List (String × String)
  fixes : List String
deriving DecidableEq

/-- engine.py pre-cognition block (lines 176-221), given the predictor's
recommendation: gate on availability, a non-`NONE` strategy and
`confidence > 0.6`; heal pre-emptively at the mapped attempt number; keep
the healer's style overrides only when they are non-empty. -/
def preSeed (healer : SmartHealer) (p : Prediction) (content : Content) : PreSeedResult :=
  if p.prediction_available then
    if p.strategy_name ≠ "NONE" ∧ mkRat 3 5 < p.confidence then
      let recommended_attempt := strategyToAttempt p.strategy_name
      let preemptive_fix := healer.heal_layout (mockReport p.strategy_name) content recommended_attempt
      if preemptive_fix.style_overrides ≠ [] then
        { overrides := preemptive_fix.style_overrides,
          fixes := ["Pre-emptive " ++ p.strategy_name ++
                    " (ML confidence: " ++ pctString p.confidence ++ ")"] }
      else { overrides := [], fixes := [] }
    else { overrides := [], fixes := [] }
  else { overrides := [], fixes := [] }

/-- Python `dict.update`: overwrite the value of keys already present (in
place, keeping their position) and append new keys in their order. -/
def dictUpdate (base upd : List (String × String)) : List (String × String) :=
  (base.map fun kv =>
    match upd.find? (fun u => u.1 == kv.1) with
    | some u => (kv.1, u.2)
    | none => kv) ++
  upd.filter fun u => base.all fun kv => kv.1 != u.1

/-- `BuildStatus` enum from engine.py.  `extra` models the `PARTIAL` member,
which no code path constructs. -/
inductive BuildStatus where
  | success
  | failed
  | rejected
  | extra
deriving DecidableEq, Repr

/-- The observable fields of engine.py's `BuildResult` that the claims are
about (paths and the guardian report are carried unmodified by the code). -/
structure BuildResult where
  status : BuildStatus
  attempts : Nat
  fixes_applied : List String
  errors : List String

/-- One `log_build_event` call as the engine makes it: the strategy string
passed, the Guardian verdict, and the reason. -/
structure TelemetryEvent where
  strategy : String
  verdict : Bool
  reason : String
deriving DecidableEq

/-- Observable side effects of a run: number of Guardian audit calls, the
telemetry events in order, and the `(content, overrides)` arguments of each
render call in order. -/
structure Trace where
  audits : Nat
  telemetry : List TelemetryEvent
  renders : List (Content × List (String × String))

/-- The engine's mutable per-build state inside the loop. -/
structure LoopState where
  content : Content
  overrides : List (String × String)
  fixes : List String

/-- A build result together with its trace of side effects. -/
structure RunResult where
  result : BuildResult
  trace : Trace

/-- The characters of a string up to (excluding) the first space: Python's
`f.split(" ")[0]`. -/
def firstWordAux : List Char → List Char
  | [] => []
  | c :: t => if c = ' ' then [] else c :: firstWordAux t

/-- Python `f.split(" ")[0]`. -/
def firstWord (f : String) : String := String.mk (firstWordAux f.data)

/-- engine.py `fixes_applied[-1].split(" ")[0] if fixes_applied else "NONE"`
(lines 250, 277, 299). -/
def currentStrategy (fixes : List String) : String :=
  match fixes.getLast? with
  | none => "NONE"
  | some f => firstWord f

/-- The per-attempt outcomes of the engine's external collaborators: the
renderer (`builder.build_page`) and the auditor (`guardian.audit_layout`),
each either a value or a raised exception.  Indexing by the attempt number
subsumes any dependence of the real calls on the evolving build state, since
the state at attempt `n` is a function of earlier oracle answers. -/
structure Env where
  validation_ok : Bool
  prediction : Prediction
  build : Nat → Except String String
  audit : Nat → Except String Report

/-- The `while attempt < max_retries` loop of `build_with_self_healing`
(engine.py lines 223-392), with `fuel = max_retries - attempt` iterations
remaining.  Each branch mirrors the corresponding return statement,
including which fields the Python code passes (e.g. `fixes_applied` is left
at its default `[]` on the build-error and guardian-disabled returns). -/
def buildLoop (env : Env) (healer : SmartHealer) (enable_guardian : Bool)
    (max_retries : Nat) : Nat → Nat → LoopState → Trace → RunResult
  | 0, attempt, _st, tr =>
    { result := { status := .failed, attempts := attempt, fixes_applied := [],
                  errors := ["Unknown error in build loop"] },
      trace := tr }
  | fuel + 1, attempt0, st, tr =>
    let attempt := attempt0 + 1
    let tr1 : Trace := { tr with renders := tr.renders ++ [(st.content, st.overrides)] }
    match env.build attempt with
    | .error e =>
      { result := { status := .failed, attempts := attempt, fixes_applied := [],
                    errors := ["Build error: " ++ e] },
        trace := tr1 }
    | .ok _path =>
      if enable_guardian then
        let tr2 : Trace := { tr1 with audits := tr1.audits + 1 }
        match env.audit attempt with
        | .error e =>
          { result := { status := .failed, attempts := attempt, fixes_applied := st.fixes,
                        errors := ["Guardian error: " ++ e] },
            trace := tr2 }
        | .ok report =>
          if report.approved then
            let tr3 : Trace :=
              { tr2 with telemetry := tr2.telemetry ++ [⟨currentStrategy st.fixes, true, ""⟩] }
            { result := { status := .success, attempts := attempt, fixes_applied := st.fixes,
                          errors := [] },
              trace := tr3 }
          else
            let tr3 : Trace :=
              { tr2 with telemetry :=
                  tr2.telemetry ++ [⟨currentStrategy st.fixes, false, report.reason⟩] }
            if attempt < max_retries then
              let healing := healer.heal_layout report st.content attempt
              let st1 : LoopState :=
                if healing.content_modified then
                  { st with content := healing.modified_content.getD st.content }
                else
                  { st with overrides := dictUpdate st.overrides healing.style_overrides }
              let st2 : LoopState :=
                { st1 with fixes :=
                    st1.fixes ++ [healing.strategy.value ++ " (attempt " ++ toString attempt ++ ")"] }
              buildLoop env healer enable_guardian max_retries fuel attempt st2 tr3
            else
              { result := { status := .rejected, attempts := attempt, fixes_applied := st.fixes,
                            errors := ["Guardian rejected after " ++ toString attempt ++ " attempts"] },
                trace := tr3 }
      else
        let tr2 : Trace :=
          { tr1 with telemetry := tr1.telemetry ++ [⟨currentStrategy st.fixes, true, ""⟩] }
        { result := { status := .success, attempts := attempt, fixes_applied := [],
                      errors := [] },
          trace := tr2 }

/-- engine.py `TrinityEngine.build_with_self_healing` (lines 117-392):
validate, optionally pre-seed from the predictor, then run the bounded
self-healing loop. -/
def build_with_self_healing (cfg : TrinityConfig) (env : Env) (content : Content)
    (enable_guardian : Bool) : RunResult :=
  if !env.validation_ok then
    { result := { status := .failed, attempts := 0, fixes_applied := [],
                  errors := ["Content validation failed"] },
      trace := { audits := 0, telemetry := [], renders := [] } }
  else
    let max_retries := if enable_guardian then cfg.max_retries else 1
    let healer : SmartHealer := { truncate_length := cfg.truncate_length }
    let seed :=
      if enable_guardian && cfg.predictive_enabled then preSeed healer env.prediction content
      else { overrides := [], fixes := [] }
    buildLoop env healer enable_guardian max_retries max_retries 0
      { content := content, overrides := seed.overrides, fixes := seed.fixes }
      { audits := 0, telemetry := [], renders := [] }

/-! ## Observation helpers

Structure-erasing views of a content document, used to state what
CONTENT_CUT preserves and what it rewrites, plus a substring test used to
state what an audit reason "mentions". -/

mutual
/-- The document with every string value blanked: its pure structure
(dict keys and nesting, list arities, non-string scalars). -/
def shapeOf : Content → Content
  | .str _ => .str ""
  | .num n => .num n
  | .dict fs => .dict (shapeFields fs)
  | .arr xs => .arr (shapeItems xs)

def shapeFields : Fields → Fields
  | .nil => .nil
  | .cons k v r => .cons k (shapeOf v) (shapeFields r)

def shapeItems : Items → Items
  | .nil => .nil
  | .cons x t => .cons (shapeOf x) (shapeItems t)
end

mutual
/-- All string values of a document, in traversal order. -/
def stringsOf : Content → List String
  | .str s => [s]
  | .num _ => []
  | .dict fs => stringsFields fs
  | .arr xs => stringsItems xs

def stringsFields : Fields → List String
  | .nil => []
  | .cons _ v r => stringsOf v ++ stringsFields r

def stringsItems : Items → List String
  | .nil => []
  | .cons x t => stringsOf x ++ stringsItems t
end

/-- Whether `needle` occurs as a contiguous run somewhere in the character
list. -/
def subOccurs (needle : List Char) : List Char → Bool
  | [] => needle.isEmpty
  | c :: t => needle.isPrefixOf (c :: t) || subOccurs needle t

/-- Whether string `hay` mentions `needle` as a substring. -/
def mentionsSub (needle hay : String) : Bool := subOccurs needle.data hay.data

/-! ## Concrete sample data for counterexamples and witness instantiations -/

/-- A small content document: `{"title": "Test"}`. -/
def sampleContent : Content :=
  Content.dict (Fields.cons "title" (Content.str "Test") Fields.nil)

/-- A content document whose only string is shorter than any cut length:
`{"title": "hi"}`. -/
def shortContent : Content :=
  Content.dict (Fields.cons "title" (Content.str "hi") Fields.nil)

/-- A Guardian rejection report as the DOM-only auditor produces it. -/
def rejectedReport : Report :=
  { approved := false, status := "fail", reason := "DOM overflow detected",
    issues := ["Horizontal or vertical overflow detected"], fix_suggestion := "truncate" }

/-- A Guardian approval report as the DOM-only auditor produces it. -/
def approvedReport : Report :=
  { approved := true, status := "pass", reason := "DOM checks passed",
    issues := [], fix_suggestion := "none" }

/-- A predictor output with no model loaded (predictor.py lines 303-311). -/
def fallbackPrediction : Prediction :=
  { strategy_id := 1, strategy_name := "CSS_BREAK_WORD",
    confidence := mkRat 1 2, prediction_available := false }

/-- Oracle: rendering always succeeds and every audit approves. -/
def envAllPass : Env :=
  { validation_ok := true, prediction := fallbackPrediction,
    build := fun _ => .ok "output/index.html",
    audit := fun _ => .ok approvedReport }

/-- Oracle: rendering succeeds, the first audit rejects, later audits
approve — a build healed by tier 1 and then accepted. -/
def envHealedOnSecond : Env :=
  { validation_ok := true, prediction := fallbackPrediction,
    build := fun _ => .ok "output/index.html",
    audit := fun n => if n = 1 then .ok rejectedReport else .ok approvedReport }

/-- Oracle: the very first render raises a template error. -/
def envBuildError : Env :=
  { validation_ok := true, prediction := fallbackPrediction,
    build := fun _ => .error "jinja2 template error",
    audit := fun _ => .ok approvedReport }

/-- A FONT_SHRINK (tier 2) recommendation at the given confidence. -/
def predFontShrink (conf : Rat) (avail : Bool) : Prediction :=
  { strategy_id := 2, strategy_name := "FONT_SHRINK", confidence := conf,
    prediction_available := avail }

/-- A CONTENT_CUT (tier 4) recommendation at the given confidence. -/
def predContentCut (conf : Rat) (avail : Bool) : Prediction :=
  { strategy_id := 4, strategy_name := "CONTENT_CUT", confidence := conf,
    prediction_available := avail }

/-- A 99 (UNRESOLVED_FAIL) recommendation at the given confidence. -/
def predUnresolved (conf : Rat) (avail : Bool) : Prediction :=
  { strategy_id := 99, strategy_name := "UNRESOLVED_FAIL", confidence := conf,
    prediction_available := avail }

/-! ## Structure preservation of recursive truncation -/

mutual
theorem shapeOf_truncate (m : Nat) : (c : Content) →
    shapeOf (truncate_recursive m c) = shapeOf c
  | .str _ => by simp only [truncate_recursive, shapeOf]
  | .num _ => by simp only [truncate_recursive, shapeOf]
  | .dict fs => by
    simp only [truncate_recursive, shapeOf, shapeFields_truncate m fs]
  | .arr xs => by
    simp only [truncate_recursive, shapeOf, shapeItems_truncate m xs]

theorem shapeFields_truncate (m : Nat) : (fs : Fields) →
    shapeFields (truncateFields m fs) = shapeFields fs
  | .nil => by simp only [truncateFields]
  | .cons _ v r => by
    simp only [truncateFields, shapeFields, shapeOf_truncate m v, shapeFields_truncate m r]

theorem shapeItems_truncate (m : Nat) : (xs : Items) →
    shapeItems (truncateItems m xs) = shapeItems xs
  | .nil => by simp only [truncateItems]
  | .cons x t => by
    simp only [truncateItems, shapeItems, shapeOf_truncate m x, shapeItems_truncate m t]
end

mutual
theorem stringsOf_truncate (m : Nat) : (c : Content) →
    stringsOf (truncate_recursive m c) = (stringsOf c).map (truncStr m)
  | .str _ => by simp only [truncate_recursive, stringsOf, List.map_cons, List.map_nil]
  | .num _ => by simp only [truncate_recursive, stringsOf, List.map_nil]
  | .dict fs => by
    simp only [truncate_recursive, stringsOf, stringsFields_truncate m fs]
  | .arr xs => by
    simp only [truncate_recursive, stringsOf, stringsItems_truncate m xs]

theorem stringsFields_truncate (m : Nat) : (fs : Fields) →
    stringsFields (truncateFields m fs) = (stringsFields fs).map (truncStr m)
  | .nil => by simp only [truncateFields, stringsFields, List.map_nil]
  | .cons _ v r => by
    simp only [truncateFields, stringsFields, stringsOf_truncate m v,
      stringsFields_truncate m r, List.map_append]

theorem stringsItems_truncate (m : Nat) : (xs : Items) →
    stringsItems (truncateItems m xs) = (stringsItems xs).map (truncStr m)
  | .nil => by simp only [truncateItems, stringsItems, List.map_nil]
  | .cons x t => by
    simp only [truncateItems, stringsItems, stringsOf_truncate m x,
      stringsItems_truncate m t, List.map_append]
end

/-- Every truncated string fits in `maxLen` plus the 3-character ellipsis. -/
theorem truncStr_length_le (maxLen : Nat) (s : String) :
    (truncStr maxLen s).length ≤ maxLen + 3 := by
  unfold truncStr
  split
  · rw [String.length_append, String.take_eq]
    rw [show (String.mk (s.data.take maxLen)).length = (s.data.take maxLen).length from rfl]
    have h2 : (s.data.take maxLen).length ≤ maxLen := by
      rw [List.length_take]; omega
    have h3 : ("..." : String).length = 3 := rfl
    omega
  · omega

/-- C6: for every healer configuration, guardian report and content
document, `heal_layout` at attempts 1, 2, 3, 4 returns the strategies
CSS_BREAK_WORD, FONT_SHRINK, CSS_TRUNCATE, CONTENT_CUT respectively, a
strictly increasing tier sequence, and the results of attempts 1-3 leave
the content unmodified. -/
theorem c6_monotonic_tier_progression (h : SmartHealer) (r : Report) (c : Content) :
    (h.heal_layout r c 1).strategy = .css_break_word ∧
    (h.heal_layout r c 2).strategy = .font_shrink ∧
    (h.heal_layout r c 3).strategy = .css_truncate ∧
    (h.heal_layout r c 4).strategy = .content_cut ∧
    (h.heal_layout r c 1).strategy.tier < (h.heal_layout r c 2).strategy.tier ∧
    (h.heal_layout r c 2).strategy.tier < (h.heal_layout r c 3).strategy.tier ∧
    (h.heal_layout r c 3).strategy.tier < (h.heal_layout r c 4).strategy.tier ∧
    (h.heal_layout r c 1).content_modified = false ∧
    (h.heal_layout r c 2).content_modified = false ∧
    (h.heal_layout r c 3).content_modified = false := by
  exact ⟨rfl, rfl, rfl, rfl, (by decide : (1:Nat) < 2), (by decide : (2:Nat) < 3),
    (by decide : (3:Nat) < 4), rfl, rfl, rfl⟩

/-- C7 counterexample: at attempt 4 with the default `truncate_length = 50`,
the 2-character string value "hi" is returned unchanged — it is not cut to
the maximum length and no ellipsis marker is appended, contradicting the
claim that every string value is truncated with an ellipsis appended. -/
theorem c7_counterexample :
    (SmartHealer.heal_layout ⟨50⟩ rejectedReport shortContent 4).modified_content
      = some shortContent ∧
    stringsOf shortContent = ["hi"] ∧
    ¬ ("hi" : String) = "hi".take 50 ++ "..." := by
  refine ⟨rfl, rfl, by decide⟩

/-- C7 (amended): for every attempt ≥ 4, `heal_layout` returns CONTENT_CUT
with `content_modified = true`, empty style overrides, and a document every
string of which is rewritten by `truncStr maxLen` — strings longer than
`maxLen = max(30, truncate_length - (attempt-4)*10)` are cut to `maxLen`
characters with the ellipsis marker appended, shorter strings are kept
verbatim — while the document structure (dict keys, list arities,
non-string values) is preserved, and `maxLen` is at least 30. -/
theorem c7_content_cut_truncation (h : SmartHealer) (r : Report) (c : Content)
    (attempt : Nat) (ha : 4 ≤ attempt) :
    (h.heal_layout r c attempt).strategy = .content_cut ∧
    (h.heal_layout r c attempt).content_modified = true ∧
    (h.heal_layout r c attempt).style_overrides = [] ∧
    (h.heal_layout r c attempt).modified_content =
      some (truncate_recursive (contentCutMaxLen h.truncate_length attempt).toNat c) ∧
    shapeOf (truncate_recursive (contentCutMaxLen h.truncate_length attempt).toNat c)
      = shapeOf c ∧
    stringsOf (truncate_recursive (contentCutMaxLen h.truncate_length attempt).toNat c)
      = (stringsOf c).map (truncStr (contentCutMaxLen h.truncate_length attempt).toNat) ∧
    (∀ s ∈ stringsOf c,
      (truncStr (contentCutMaxLen h.truncate_length attempt).toNat s).length ≤
        (contentCutMaxLen h.truncate_length attempt).toNat + 3) ∧
    30 ≤ contentCutMaxLen h.truncate_length attempt := by
  have h1 : attempt ≠ 1 := by omega
  have h2 : attempt ≠ 2 := by omega
  have h3 : attempt ≠ 3 := by omega
  refine ⟨?_, ?_, ?_, ?_, shapeOf_truncate _ _, stringsOf_truncate _ _,
    fun s _ => truncStr_length_le _ s, le_max_left _ _⟩ <;>
    simp [SmartHealer.heal_layout, apply_content_cut_strategy, h1, h2, h3]

/-- C7 witness: the amended theorem instantiated at attempt 4 with the
default configuration and a sample document. -/
theorem c7_content_cut_truncation_witness :
    4 ≤ 4 ∧
    ((SmartHealer.heal_layout ⟨50⟩ rejectedReport sampleContent 4).strategy = .content_cut ∧
     (SmartHealer.heal_layout ⟨50⟩ rejectedReport sampleContent 4).content_modified = true ∧
     (SmartHealer.heal_layout ⟨50⟩ rejectedReport sampleContent 4).style_overrides = [] ∧
     (SmartHealer.heal_layout ⟨50⟩ rejectedReport sampleContent 4).modified_content =
       some (truncate_recursive (contentCutMaxLen (50 : Int) 4).toNat sampleContent) ∧
     shapeOf (truncate_recursive (contentCutMaxLen (50 : Int) 4).toNat sampleContent)
       = shapeOf sampleContent ∧
     stringsOf (truncate_recursive (contentCutMaxLen (50 : Int) 4).toNat sampleContent)
       = (stringsOf sampleContent).map (truncStr (contentCutMaxLen (50 : Int) 4).toNat) ∧
     (∀ s ∈ stringsOf sampleContent,
       (truncStr (contentCutMaxLen (50 : Int) 4).toNat s).length ≤
         (contentCutMaxLen (50 : Int) 4).toNat + 3) ∧
     30 ≤ contentCutMaxLen (50 : Int) 4) :=
  ⟨by decide, c7_content_cut_truncation ⟨50⟩ rejectedReport sampleContent 4 (by decide)⟩

/-- C2 counterexample: when the vision call raises a connection error (with
no DOM overflow and a good screenshot), `audit_layout` approves, but the
returned `reason` is the generic "Layout passed all checks" — it does not
mention that the semantic check was unavailable; the unavailability
annotation is recorded in `issues` instead. -/
theorem c2_counterexample :
    (audit_layout true false true (VisionOutcome.apiError "connection refused")).approved
      = true ∧
    (audit_layout true false true (VisionOutcome.apiError "connection refused")).reason
      = "Layout passed all checks" ∧
    mentionsSub "unavail" "Layout passed all checks" = false ∧
    (audit_layout true false true (VisionOutcome.apiError "connection refused")).issues
      = ["Vision AI unavailable - auto-approved"] := by
  refine ⟨rfl, rfl, by decide, rfl⟩

/-- C2 (amended): whenever the vision call fails (API/connection error,
malformed JSON response, or any other exception) while the screenshot was
captured, `audit_layout` fails open: the verdict has `approved = true`, a
non-empty `reason`, and the `issues` list (not the reason) carries an entry
mentioning the Vision AI failure. -/
theorem c2_fail_open (dom : Bool) (v : VisionOutcome) (hv : v.isFailure = true) :
    (audit_layout true dom true v).approved = true ∧
    (audit_layout true dom true v).reason ≠ "" ∧
    (audit_layout true dom true v).issues.any (fun i => mentionsSub "Vision AI" i) = true := by
  have hp : ∀ t : String, mentionsSub "Vision AI" t = true →
      ([t] : List String).any (fun i => mentionsSub "Vision AI" i) = true := by
    intro t ht; simp [List.any, ht]
  cases v with
  | ok s i f => simp [VisionOutcome.isFailure] at hv
  | apiError m =>
    cases dom
    · exact ⟨rfl, (by decide : ("Layout passed all checks" : String) ≠ ""),
        hp _ (by decide)⟩
    · exact ⟨rfl, (by decide : ("DOM overflow detected but visually acceptable" : String) ≠ ""),
        hp _ (by decide)⟩
  | jsonError m =>
    cases dom
    · exact ⟨rfl, (by decide : ("Layout passed all checks" : String) ≠ ""),
        hp _ (by decide)⟩
    · exact ⟨rfl, (by decide : ("DOM overflow detected but visually acceptable" : String) ≠ ""),
        hp _ (by decide)⟩
  | otherError m =>
    cases dom
    · exact ⟨rfl, (by decide : ("Layout passed all checks" : String) ≠ ""),
        hp _ (by decide)⟩
    · exact ⟨rfl, (by decide : ("DOM overflow detected but visually acceptable" : String) ≠ ""),
        hp _ (by decide)⟩

/-- C2 witness: the amended fail-open behaviour at a concrete malformed
vision response with DOM overflow present. -/
theorem c2_fail_open_witness :
    (VisionOutcome.jsonError "not json").isFailure = true ∧
    ((audit_layout true true true (VisionOutcome.jsonError "not json")).approved = true ∧
     (audit_layout true true true (VisionOutcome.jsonError "not json")).reason ≠ "" ∧
     (audit_layout true true true (VisionOutcome.jsonError "not json")).issues.any
       (fun i => mentionsSub "Vision AI" i) = true) :=
  ⟨rfl, c2_fail_open true (VisionOutcome.jsonError "not json") rfl⟩

/-- C3: the auditor's combination rule.  (i) If Phase 1 found overflow but
Phase 2 ran and reported "pass", the verdict is approved; (ii) whenever
Phase 2 reports "fail" the verdict is not approved, regardless of Phase 1;
(iii) with the vision phase disabled, the verdict is approved exactly when
Phase 1 found no overflow. -/
theorem c3_combination_rule (dom shot : Bool) (issues : List String) (fix : String)
    (v : VisionOutcome) :
    (audit_layout true dom true (VisionOutcome.ok "pass" issues fix)).approved = true ∧
    (audit_layout true dom true (VisionOutcome.ok "fail" issues fix)).approved = false ∧
    (audit_layout false dom shot v).approved = !dom := by
  cases dom <;> refine ⟨rfl, rfl, rfl⟩

/-- C4 counterexample: a CONTENT_CUT recommendation with
`prediction_available = true` and confidence 0.7 > 0.6 leaves the pre-seed
state completely empty — in particular no pre-emptive entry is recorded in
`fixes_applied`, because the healer's CONTENT_CUT output carries no style
overrides and the engine only keeps non-empty override maps. -/
theorem c4_counterexample :
    preSeed ⟨50⟩ (predContentCut (mkRat 7 10) true) sampleContent
      = { overrides := [], fixes := [] } ∧
    mkRat 3 5 < mkRat 7 10 ∧
    ("CONTENT_CUT" : String) ≠ "NONE" := by
  refine ⟨rfl, by decide, by decide⟩

/-- The three CSS tiers always return a non-empty override map. -/
theorem heal_css_tier_overrides_ne_nil (h : SmartHealer) (r : Report) (c : Content)
    (a : Nat) (ha : a = 1 ∨ a = 2 ∨ a = 3) :
    (h.heal_layout r c a).style_overrides ≠ [] := by
  rcases ha with rfl | rfl | rfl <;>
    simp [SmartHealer.heal_layout, apply_break_word_strategy, apply_font_shrink_strategy,
      apply_truncate_strategy, breakWordOverrides, nuclearCss]

/-- C4 (amended): confidence gating of the pre-seed step.  For a
recommendation of one of the three CSS tiers (CSS_BREAK_WORD, FONT_SHRINK,
CSS_TRUNCATE — the non-NONE strategies whose healer output carries a
non-empty override map), `prediction_available = true` and confidence
strictly above 0.6 pre-seed the accumulated overrides with the healer's
output for the recommended tier and record one pre-emptive entry; a
confidence ≤ 0.6, or an unavailable prediction, leaves the pre-seed state
empty (so escalation begins at tier 1 as normal).  (A CONTENT_CUT
recommendation also leaves the state empty; see the counterexample.) -/
theorem c4_confidence_gating (h : SmartHealer) (p : Prediction) (c : Content) :
    (p.prediction_available = true → mkRat 3 5 < p.confidence →
      (p.strategy_name = "CSS_BREAK_WORD" ∨ p.strategy_name = "FONT_SHRINK" ∨
       p.strategy_name = "CSS_TRUNCATE") →
      preSeed h p c =
        { overrides := (h.heal_layout (mockReport p.strategy_name) c
            (strategyToAttempt p.strategy_name)).style_overrides,
          fixes := ["Pre-emptive " ++ p.strategy_name ++ " (ML confidence: " ++
                    pctString p.confidence ++ ")"] } ∧
      (preSeed h p c).overrides ≠ []) ∧
    (p.confidence ≤ mkRat 3 5 → preSeed h p c = { overrides := [], fixes := [] }) ∧
    (p.prediction_available = false → preSeed h p c = { overrides := [], fixes := [] }) := by
  refine ⟨?_, ?_, ?_⟩
  · intro hav hc hs
    have hne : p.strategy_name ≠ "NONE" := by
      rcases hs with hs | hs | hs <;> simp [hs]
    have ha : strategyToAttempt p.strategy_name = 1 ∨ strategyToAttempt p.strategy_name = 2 ∨
        strategyToAttempt p.strategy_name = 3 := by
      rcases hs with hs | hs | hs <;> simp [hs, strategyToAttempt]
    have hoverr := heal_css_tier_overrides_ne_nil h (mockReport p.strategy_name) c _ ha
    have hps : preSeed h p c =
        { overrides := (h.heal_layout (mockReport p.strategy_name) c
            (strategyToAttempt p.strategy_name)).style_overrides,
          fixes := ["Pre-emptive " ++ p.strategy_name ++ " (ML confidence: " ++
                    pctString p.confidence ++ ")"] } := by
      rw [preSeed, if_pos hav]
      dsimp only
      rw [if_pos (⟨hne, hc⟩ : p.strategy_name ≠ "NONE" ∧ mkRat 3 5 < p.confidence),
        if_pos hoverr]
    refine ⟨hps, ?_⟩
    rw [hps]
    exact hoverr
  · intro hle
    have hgate : ¬ (p.strategy_name ≠ "NONE" ∧ mkRat 3 5 < p.confidence) := by
      rintro ⟨-, hlt⟩
      exact absurd hlt (not_lt.mpr hle)
    rw [preSeed]
    by_cases hav : p.prediction_available = true
    · rw [if_pos hav]
      dsimp only
      rw [if_neg hgate]
    · rw [if_neg hav]
  · intro hav
    rw [preSeed, if_neg]
    rw [hav]
    exact Bool.false_ne_true

/-- C4 witness: the gating theorem at concrete confidences — 0.61 for
FONT_SHRINK pre-seeds the tier-2 state, 0.59 and an unavailable predictor
leave the state empty (the spec's 0.59/0.61 vignette). -/
theorem c4_confidence_gating_witness :
    (preSeed ⟨50⟩ (predFontShrink (mkRat 61 100) true) sampleContent =
      { overrides := (SmartHealer.heal_layout ⟨50⟩ (mockReport "FONT_SHRINK") sampleContent
          (strategyToAttempt "FONT_SHRINK")).style_overrides,
        fixes := ["Pre-emptive " ++ "FONT_SHRINK" ++ " (ML confidence: " ++
                  pctString (mkRat 61 100) ++ ")"] } ∧
     (preSeed ⟨50⟩ (predFontShrink (mkRat 61 100) true) sampleContent).overrides ≠ []) ∧
    preSeed ⟨50⟩ (predFontShrink (mkRat 59 100) true) sampleContent
      = { overrides := [], fixes := [] } ∧
    preSeed ⟨50⟩ (predFontShrink (mkRat 61 100) false) sampleContent
      = { overrides := [], fixes := [] } :=
  ⟨(c4_confidence_gating ⟨50⟩ (predFontShrink (mkRat 61 100) true) sampleContent).1 rfl
      (by decide) (Or.inr (Or.inl rfl)),
   (c4_confidence_gating ⟨50⟩ (predFontShrink (mkRat 59 100) true) sampleContent).2.1 (by decide),
   (c4_confidence_gating ⟨50⟩ (predFontShrink (mkRat 61 100) false) sampleContent).2.2 rfl⟩

/-- C5 counterexample: a 99 (UNRESOLVED_FAIL) recommendation with
confidence 0.9 is *not* treated like no recommendation: the pre-seed step
fills the accumulated overrides with the tier-1 break-word map and records
a pre-emptive fixes entry, while an unavailable predictor (the
"no recommendation" case) leaves both empty. -/
theorem c5_counterexample :
    (preSeed ⟨50⟩ (predUnresolved (mkRat 9 10) true) sampleContent).overrides
      = breakWordOverrides ∧
    breakWordOverrides ≠ [] ∧
    (preSeed ⟨50⟩ (predUnresolved (mkRat 9 10) true) sampleContent).fixes ≠ [] ∧
    preSeed ⟨50⟩ (predUnresolved (mkRat 9 10) false) sampleContent
      = { overrides := [], fixes := [] } := by
  refine ⟨rfl, by decide, ?_, rfl⟩
  intro hcon
  simp only [preSeed] at hcon
  revert hcon
  decide

/-- C5 (amended): a 99 (UNRESOLVED_FAIL) recommendation behaves like any
other prediction under the confidence gate.  With confidence ≤ 0.6 or an
unavailable predictor the pre-seed state is identical to "no
recommendation" (both empty, escalation starts at tier 1); but with
`prediction_available = true` and confidence > 0.6 the name falls through
`strategy_to_attempt.get(..., 1)` to attempt 1, so the tier-1 break-word
overrides are pre-seeded and a pre-emptive entry is recorded. -/
theorem c5_unresolved_fail_gating (h : SmartHealer) (p : Prediction) (c : Content)
    (hname : p.strategy_name = "UNRESOLVED_FAIL") :
    (p.confidence ≤ mkRat 3 5 → preSeed h p c = { overrides := [], fixes := [] }) ∧
    (p.prediction_available = false → preSeed h p c = { overrides := [], fixes := [] }) ∧
    (p.prediction_available = true → mkRat 3 5 < p.confidence →
      strategyToAttempt p.strategy_name = 1 ∧
      preSeed h p c =
        { overrides := breakWordOverrides,
          fixes := ["Pre-emptive " ++ p.strategy_name ++ " (ML confidence: " ++
                    pctString p.confidence ++ ")"] }) := by
  refine ⟨?_, ?_, ?_⟩
  · intro hle
    have hgate : ¬ (p.strategy_name ≠ "NONE" ∧ mkRat 3 5 < p.confidence) := by
      rintro ⟨-, hlt⟩
      exact absurd hlt (not_lt.mpr hle)
    rw [preSeed]
    by_cases hav : p.prediction_available = true
    · rw [if_pos hav]
      dsimp only
      rw [if_neg hgate]
    · rw [if_neg hav]
  · intro hav
    rw [preSeed, if_neg]
    rw [hav]
    exact Bool.false_ne_true
  · intro hav hc
    have hne : p.strategy_name ≠ "NONE" := by simp [hname]
    have hatt : strategyToAttempt p.strategy_name = 1 := by simp [hname, strategyToAttempt]
    refine ⟨hatt, ?_⟩
    rw [preSeed, if_pos hav]
    dsimp only
    rw [if_pos (⟨hne, hc⟩ : p.strategy_name ≠ "NONE" ∧ mkRat 3 5 < p.confidence), hatt]
    rw [if_pos (heal_css_tier_overrides_ne_nil h (mockReport p.strategy_name) c 1
      (Or.inl rfl))]
    rfl

/-- C5 witness: the amended theorem at concrete 99 recommendations with
confidence 0.5 (left untouched) and 0.9 (pre-seeded at tier 1). -/
theorem c5_unresolved_fail_gating_witness :
    preSeed ⟨50⟩ (predUnresolved (mkRat 1 2) true) sampleContent
      = { overrides := [], fixes := [] } ∧
    preSeed ⟨50⟩ (predUnresolved (mkRat 1 2) false) sampleContent
      = { overrides := [], fixes := [] } ∧
    (strategyToAttempt "UNRESOLVED_FAIL" = 1 ∧
     preSeed ⟨50⟩ (predUnresolved (mkRat 9 10) true) shortContent
      = { overrides := breakWordOverrides,
          fixes := ["Pre-emptive " ++ "UNRESOLVED_FAIL" ++ " (ML confidence: " ++
                    pctString (mkRat 9 10) ++ ")"] }) :=
  ⟨(c5_unresolved_fail_gating ⟨50⟩ (predUnresolved (mkRat 1 2) true) sampleContent rfl).1
      (by decide),
   (c5_unresolved_fail_gating ⟨50⟩ (predUnresolved (mkRat 1 2) false) sampleContent rfl).2.1 rfl,
   (c5_unresolved_fail_gating ⟨50⟩ (predUnresolved (mkRat 9 10) true) shortContent rfl).2.2 rfl
      (by decide)⟩

/-! ## Loop invariants of the orchestrator -/

/-- Each loop iteration performs at most one audit call. -/
theorem buildLoop_audits_le (env : Env) (healer : SmartHealer) (g : Bool) (mr : Nat)
    (fuel : Nat) :
    ∀ attempt st tr,
      (buildLoop env healer g mr fuel attempt st tr).trace.audits ≤ tr.audits + fuel := by
  induction fuel with
  | zero =>
    intro attempt st tr
    simp [buildLoop]
  | succ n ih =>
    intro attempt st tr
    simp only [buildLoop]
    split
    · simp
    · split
      · split
        · simp
        · split
          · simp
          · split
            · exact le_trans (ih _ _ _) (by simp; omega)
            · simp
      · simp

/-- The loop never produces the unused `PARTIAL` status. -/
theorem buildLoop_status_ne_extra (env : Env) (healer : SmartHealer) (g : Bool) (mr : Nat)
    (fuel : Nat) :
    ∀ attempt st tr,
      (buildLoop env healer g mr fuel attempt st tr).result.status ≠ .extra := by
  induction fuel with
  | zero =>
    intro attempt st tr
    simp [buildLoop]
  | succ n ih =>
    intro attempt st tr
    simp only [buildLoop]
    split
    · simp
    · split
      · split
        · simp
        · split
          · simp
          · split
            · exact ih _ _ _
            · simp
      · simp

/-- With auditing enabled, the loop preserves "one telemetry event per
audit": if it terminates with SUCCESS or REJECTED, the number of telemetry
events equals the number of audit calls (each audited attempt logs exactly
one event, in particular the terminal one). -/
theorem buildLoop_telemetry_length (env : Env) (healer : SmartHealer) (mr : Nat)
    (fuel : Nat) :
    ∀ attempt st tr, tr.telemetry.length = tr.audits →
      ((buildLoop env healer true mr fuel attempt st tr).result.status = .success ∨
       (buildLoop env healer true mr fuel attempt st tr).result.status = .rejected) →
      (buildLoop env healer true mr fuel attempt st tr).trace.telemetry.length =
        (buildLoop env healer true mr fuel attempt st tr).trace.audits := by
  induction fuel with
  | zero =>
    intro attempt st tr hinv hst
    simp [buildLoop] at hst
  | succ n ih =>
    intro attempt st tr hinv hst
    simp only [buildLoop] at hst ⊢
    cases hb : env.build (attempt + 1) with
    | error e =>
      simp only [hb] at hst
      simp at hst
    | ok path =>
      simp only [hb, if_true] at hst ⊢
      cases ha : env.audit (attempt + 1) with
      | error e =>
        simp only [ha] at hst
        simp at hst
      | ok report =>
        simp only [ha] at hst ⊢
        by_cases hap : report.approved = true
        · simp only [if_pos hap] at hst ⊢
          simp [hinv]
        · simp only [if_neg hap] at hst ⊢
          by_cases hlt : attempt + 1 < mr
          · simp only [if_pos hlt] at hst ⊢
            exact ih _ _ _ (by simp [hinv]) hst
          · simp only [if_neg hlt] at hst ⊢
            simp [hinv]

/-- The loop only appends to the render log. -/
theorem buildLoop_renders_extend (env : Env) (healer : SmartHealer) (g : Bool) (mr : Nat)
    (fuel : Nat) :
    ∀ attempt st tr, ∃ ext,
      (buildLoop env healer g mr fuel attempt st tr).trace.renders = tr.renders ++ ext := by
  induction fuel with
  | zero =>
    intro attempt st tr
    exact ⟨[], by simp [buildLoop]⟩
  | succ n ih =>
    intro attempt st tr
    simp only [buildLoop]
    split
    · exact ⟨[(st.content, st.overrides)], rfl⟩
    · split
      · split
        · exact ⟨[(st.content, st.overrides)], rfl⟩
        · split
          · exact ⟨[(st.content, st.overrides)], rfl⟩
          · split
            · obtain ⟨ext, hext⟩ := ih _ _ _
              exact ⟨(st.content, st.overrides) :: ext, by rw [hext]; simp⟩
            · exact ⟨[(st.content, st.overrides)], rfl⟩
      · exact ⟨[(st.content, st.overrides)], rfl⟩

/-- As long as at least one iteration remains, the next render the loop
performs uses exactly the current state's content and overrides. -/
theorem buildLoop_renders_head (env : Env) (healer : SmartHealer) (g : Bool) (mr : Nat)
    (n attempt : Nat) (st : LoopState) (tr : Trace) :
    ∃ rest, (buildLoop env healer g mr (n + 1) attempt st tr).trace.renders
      = tr.renders ++ (st.content, st.overrides) :: rest := by
  simp only [buildLoop]
  split
  · exact ⟨[], rfl⟩
  · split
    · split
      · exact ⟨[], rfl⟩
      · split
        · exact ⟨[], rfl⟩
        · split
          · obtain ⟨ext, hext⟩ := buildLoop_renders_extend env healer g mr n _ _ _
            exact ⟨ext, by rw [hext]; simp⟩
          · exact ⟨[], rfl⟩
    · exact ⟨[], rfl⟩

/-- C1: bounded termination of the orchestrator.  With auditing enabled and
`max_retries = N ≥ 1`, a build performs at most N audit calls and always
returns a terminal status — SUCCESS, REJECTED or FAILED (never the unused
PARTIAL) — for every behaviour of the renderer, auditor and predictor. -/
theorem c1_bounded_termination (cfg : TrinityConfig) (env : Env) (c : Content) (N : Nat)
    (_hN : 1 ≤ N) (hmr : cfg.max_retries = N) :
    (build_with_self_healing cfg env c true).trace.audits ≤ N ∧
    ((build_with_self_healing cfg env c true).result.status = .success ∨
     (build_with_self_healing cfg env c true).result.status = .rejected ∨
     (build_with_self_healing cfg env c true).result.status = .failed) := by
  have hterm : ∀ rr : RunResult, rr.result.status ≠ .extra →
      (rr.result.status = .success ∨ rr.result.status = .rejected ∨
       rr.result.status = .failed) := by
    intro rr hne
    cases hs : rr.result.status
    · exact Or.inl rfl
    · exact Or.inr (Or.inr rfl)
    · exact Or.inr (Or.inl rfl)
    · exact absurd hs hne
  rw [build_with_self_healing]
  by_cases hv : env.validation_ok = true
  · rw [hv]
    rw [if_neg (by simp)]
    dsimp only
    constructor
    · exact le_trans (buildLoop_audits_le _ _ _ _ _ _ _ _) (by simp [hmr])
    · exact hterm _ (buildLoop_status_ne_extra _ _ _ _ _ _ _ _)
  · rw [Bool.not_eq_true] at hv
    rw [hv]
    rw [if_pos rfl]
    exact ⟨Nat.zero_le _, Or.inr (Or.inr rfl)⟩

/-- C1 witness: a concrete 2-attempt, guardian-enabled run under an
all-approving oracle. -/
theorem c1_bounded_termination_witness :
    1 ≤ 2 ∧ (⟨2, 50, false⟩ : TrinityConfig).max_retries = 2 ∧
    ((build_with_self_healing ⟨2, 50, false⟩ envAllPass sampleContent true).trace.audits ≤ 2 ∧
     ((build_with_self_healing ⟨2, 50, false⟩ envAllPass sampleContent true).result.status
        = .success ∨
      (build_with_self_healing ⟨2, 50, false⟩ envAllPass sampleContent true).result.status
        = .rejected ∨
      (build_with_self_healing ⟨2, 50, false⟩ envAllPass sampleContent true).result.status
        = .failed)) :=
  ⟨by decide, rfl,
   c1_bounded_termination ⟨2, 50, false⟩ envAllPass sampleContent 2 (by decide) rfl⟩

/-- C9 counterexample: a rendering exception on the very first attempt
produces the terminal FAILED result with an empty telemetry log — the
FAILED branch emits no telemetry event, contradicting "every terminal
branch emits exactly one telemetry event". -/
theorem c9_counterexample :
    (build_with_self_healing ⟨3, 50, false⟩ envBuildError sampleContent true).result.status
      = .failed ∧
    (build_with_self_healing ⟨3, 50, false⟩ envBuildError sampleContent true).trace.telemetry
      = [] :=
  ⟨rfl, rfl⟩

/-- C9 (amended): with auditing enabled, the SUCCESS and REJECTED terminal
branches log exactly one telemetry event per audit call (in particular one
for the terminal attempt); FAILED branches log none of their own; and
`log_build_event` swallows any internal exception, so telemetry failure can
never propagate into the build result. -/
theorem c9_telemetry_on_terminal (cfg : TrinityConfig) (env : Env) (c : Content) :
    (((build_with_self_healing cfg env c true).result.status = .success ∨
      (build_with_self_healing cfg env c true).result.status = .rejected) →
      (build_with_self_healing cfg env c true).trace.telemetry.length =
        (build_with_self_healing cfg env c true).trace.audits) ∧
    (∀ io, log_build_event io = Except.ok ()) := by
  constructor
  · intro hst
    rw [build_with_self_healing] at hst ⊢
    by_cases hv : env.validation_ok = true
    · rw [hv, if_neg (by simp)] at hst ⊢
      dsimp only at hst ⊢
      exact buildLoop_telemetry_length _ _ _ _ _ _ _ rfl hst
    · rw [Bool.not_eq_true] at hv
      rw [hv, if_pos rfl] at hst
      simp at hst
  · intro io
    cases io <;> rfl

/-- C9 witness: the amended theorem at the healed-then-approved oracle
(two audits, two telemetry events) and at a concrete failing telemetry
write. -/
theorem c9_telemetry_on_terminal_witness :
    (build_with_self_healing ⟨3, 50, false⟩ envHealedOnSecond sampleContent true).trace.telemetry.length =
      (build_with_self_healing ⟨3, 50, false⟩ envHealedOnSecond sampleContent true).trace.audits ∧
    log_build_event (Except.error "disk full") = Except.ok () :=
  ⟨(c9_telemetry_on_terminal ⟨3, 50, false⟩ envHealedOnSecond sampleContent).1 (Or.inl rfl),
   (c9_telemetry_on_terminal ⟨3, 50, false⟩ envHealedOnSecond sampleContent).2
     (Except.error "disk full")⟩

/-- C8: evaluation at the failing input.  A build rejected on attempt 1,
healed by tier 1 (CSS_BREAK_WORD) and approved on attempt 2 passes the
lowercase enum value "css_break_word" (taken from
`fixes_applied[-1].split(" ")[0]`) to the telemetry miner, whose strategy
map only contains the uppercase name — so the resolved outcome id logged is
99 (UNRESOLVED_FAIL), not the claimed tier id 1.  The miner's own mapping,
with the documented uppercase names, does produce 1. -/
theorem c8_resolved_id_mismatch :
    (build_with_self_healing ⟨3, 50, false⟩ envHealedOnSecond sampleContent true).result.status
      = .success ∧
    (build_with_self_healing ⟨3, 50, false⟩ envHealedOnSecond sampleContent true).result.fixes_applied
      = ["css_break_word (attempt 1)"] ∧
    (build_with_self_healing ⟨3, 50, false⟩ envHealedOnSecond sampleContent true).trace.telemetry
      = [⟨"NONE", false, "DOM overflow detected"⟩, ⟨"css_break_word", true, ""⟩] ∧
    compute_resolved_strategy_id "css_break_word" true = 99 ∧
    compute_resolved_strategy_id "CSS_BREAK_WORD" true = 1 ∧
    (99 : Nat) ≠ 1 := by
  refine ⟨rfl, rfl, rfl, rfl, rfl, by decide⟩

/-- C10: the frame property of predictor pre-seeding.  (a) In every run the
content passed to the first render is exactly the input content document —
the pre-seed step can only write the accumulated overrides and the fixes
log, never `current_content`; (b) when the recommended strategy is
CONTENT_CUT (whose healer result carries replacement content and an empty
override map), the pre-seed step changes nothing at all. -/
theorem c10_preseed_frame_property :
    (∀ (cfg : TrinityConfig) (env : Env) (c : Content) (g : Bool),
      ((build_with_self_healing cfg env c g).trace.renders.map Prod.fst).head? = some c ∨
      (build_with_self_healing cfg env c g).trace.renders = []) ∧
    (∀ (h : SmartHealer) (p : Prediction) (c : Content),
      p.strategy_name = "CONTENT_CUT" →
      preSeed h p c = { overrides := [], fixes := [] }) := by
  constructor
  · intro cfg env c g
    rw [build_with_self_healing]
    by_cases hv : env.validation_ok = true
    · rw [hv, if_neg (by simp)]
      dsimp only
      cases hmr : (if g = true then cfg.max_retries else 1) with
      | zero =>
        right
        simp [buildLoop]
      | succ n =>
        left
        obtain ⟨rest, hrest⟩ := buildLoop_renders_head env ⟨cfg.truncate_length⟩ g
          (n + 1) n 0 _ _
        rw [hrest]
        simp
    · rw [Bool.not_eq_true] at hv
      right
      rw [hv]
      simp
  · intro h p c hname
    rw [preSeed, hname]
    by_cases hav : p.prediction_available = true
    · rw [if_pos hav]
      dsimp only
      by_cases hc : mkRat 3 5 < p.confidence
      · rw [if_pos (⟨by decide, hc⟩ : ("CONTENT_CUT" : String) ≠ "NONE" ∧
          mkRat 3 5 < p.confidence)]
        have hatt : strategyToAttempt "CONTENT_CUT" = 4 := rfl
        rw [hatt]
        have hso : (h.heal_layout (mockReport "CONTENT_CUT") c 4).style_overrides = [] := rfl
        rw [if_neg (fun hcon => hcon hso)]
      · rw [if_neg (fun hcon => hc hcon.2)]
    · rw [if_neg hav]

/-- C10 witness: the frame property at a concrete all-approving run and a
concrete high-confidence CONTENT_CUT recommendation. -/
theorem c10_preseed_frame_property_witness :
    (((build_with_self_healing ⟨3, 50, false⟩ envAllPass sampleContent true).trace.renders.map
        Prod.fst).head? = some sampleContent ∨
     (build_with_self_healing ⟨3, 50, false⟩ envAllPass sampleContent true).trace.renders = []) ∧
    ("CONTENT_CUT" : String) = "CONTENT_CUT" ∧
    preSeed ⟨50⟩ (predContentCut (mkRat 9 10) true) shortContent
      = { overrides := [], fixes := [] } :=
  ⟨c10_preseed_frame_property.1 ⟨3, 50, false⟩ envAllPass sampleContent true,
   rfl,
   c10_preseed_frame_property.2 ⟨50⟩ (predContentCut (mkRat 9 10) true) shortContent rfl⟩
